import Mathlib

/-!
# videotube-backend: controllers over a document store

A shallow embedding of the request handlers of
`src/controllers/{like,subscription,comment,tweet,video}.controller.js`.

* A collection is a `List` of documents in insertion order.
* A handler is a function from the store and the request to an `Outcome`
  and the store afterwards.
* The mongoose model layer (`findOne`, `create`, `deleteMany`, ...) is an
  external library; its primitives are rendered by the list operations
  `find?`, append, `eraseP` and `filter`.
-/

namespace VideoTube

/-! ## Data model -/

/-- An opaque document identifier (`mongoose.Types.ObjectId`). -/
abbrev ObjectId := Nat

/-- Modelled from the spec: the `User` model (`models/user.model.js`) is not
part of the sources; the fields are the ones the controllers read:
fullname, username, avatar and the watch-history list of Video references. -/
structure User where
  _id : ObjectId
  username : String
  fullName : String
  avatar : String
  watchHistory : List ObjectId
deriving DecidableEq, Repr

/-- What the media upload collaborator (`uploadOnCloudinary`) hands back. -/
structure UploadResult where
  url : String
  duration : Nat
deriving DecidableEq, Repr

/-- A scalar on the right-hand side of an update operator. -/
inductive FlatVal where
  | str (s : String)
  | upload (u : UploadResult)
deriving DecidableEq, Repr

/-- A value on the right-hand side of `$set`. -/
inductive SetVal where
  | flat (v : FlatVal)
  | bool (b : Bool)
  | obj (fields : List (String × FlatVal))
deriving DecidableEq, Repr

/-- Modelled from the spec: the `Video` model (`models/video.model.js`) is not
part of the sources; the fields are the ones `publishAVideo` writes (title,
describtion, videoFile, thumbnail, duration, isPublished, owner) plus the view
count. `extra` holds paths outside the schema, which only a non-strict schema
stores. -/
structure Video where
  _id : ObjectId
  videoFile : String
  thumbnail : String
  title : String
  describtion : String
  duration : Nat
  views : Nat
  isPublished : Bool
  owner : ObjectId
  extra : List (String × SetVal)
deriving DecidableEq, Repr

/-- Modelled from the spec: the `Comment` model is not part of the sources;
content, video reference, owner reference. -/
structure Comment where
  _id : ObjectId
  content : String
  video : ObjectId
  owner : ObjectId
deriving DecidableEq, Repr

/-- Modelled from the spec: the `Like` model is not part of the sources;
likedBy plus the optional references video, comment and tweet. -/
structure Like where
  _id : ObjectId
  video : Option ObjectId
  comment : Option ObjectId
  tweet : Option ObjectId
  likedBy : ObjectId
deriving DecidableEq, Repr

/-- Modelled from the spec: the `Tweet` model is not part of the sources;
content and owner reference. -/
structure Tweet where
  _id : ObjectId
  content : String
  owner : ObjectId
deriving DecidableEq, Repr

/-- Modelled from the spec: the `Subscription` model is not part of the
sources; subscriber and channel, both User references. -/
structure Subscription where
  _id : ObjectId
  subscriber : ObjectId
  channel : ObjectId
deriving DecidableEq, Repr

/-- The document database: one list per collection, and the identifier the
next created document receives. -/
structure Store where
  users : List User
  videos : List Video
  comments : List Comment
  likes : List Like
  tweets : List Tweet
  subscriptions : List Subscription
  nextId : ObjectId
deriving DecidableEq, Repr

/-! ## Requests -/

/-- An identifier taken from `req.params`: not there at all, a string that
does not cast to an ObjectId, or a string that does (24 hex digits), given by
the identifier it casts to. -/
inductive PathId where
  | absent
  | malformed (raw : String)
  | valid (id : ObjectId)
deriving DecidableEq, Repr

/-- ECMAScript WhiteSpace and LineTerminator code points, the ones
`String.prototype.trim` strips. -/
def isJsWhitespace (c : Char) : Bool :=
  let n := c.toNat
  n == 0x09 || n == 0x0A || n == 0x0B || n == 0x0C || n == 0x0D || n == 0x20 ||
  n == 0xA0 || n == 0x1680 || (0x2000 ≤ n && n ≤ 0x200A) || n == 0x2028 ||
  n == 0x2029 || n == 0x202F || n == 0x205F || n == 0x3000 || n == 0xFEFF

/-- The function `String.prototype.trim`. -/
def jsTrim (s : String) : String :=
  String.mk ((s.toList.dropWhile isJsWhitespace).reverse.dropWhile isJsWhitespace).reverse

/-- JavaScript truthiness of a string: the empty string is falsy. -/
def strTruthy (s : String) : Bool := !s.isEmpty

/-- Truthiness of an optional string (`undefined` is falsy). -/
def optTruthy : Option String → Bool
  | none => false
  | some s => strTruthy s

/-- The expression `x?.trim()` tested for truthiness. -/
def optTrimTruthy : Option String → Bool
  | none => false
  | some s => strTruthy (jsTrim s)

/-- The string a path identifier is, when it is there. A valid identifier is
24 hex digits, of which only the fact that it is neither empty nor blank
matters here. -/
def PathId.raw : PathId → Option String
  | .absent => none
  | .malformed r => some r
  | .valid _ => some "0123456789abcdef01234567"

/-- Truthiness of a path identifier (the test `!videoId`). -/
def PathId.truthy (p : PathId) : Bool := optTruthy p.raw

/-- The test `videoId?.trim()`. -/
def PathId.trimTruthy (p : PathId) : Bool := optTrimTruthy p.raw

/-- The mongoose function `isValidObjectId`. -/
def isValidObjectId : PathId → Bool
  | .valid _ => true
  | _ => false

/-- Casting a request string to an ObjectId, as mongoose does for query
filters and as `new mongoose.Types.ObjectId(..)` does; `none` is a cast
failure. -/
def castObjectId : PathId → Option ObjectId
  | .valid i => some i
  | _ => none

/-! ## Responses -/

/-- One element of the `getVideoComments` result after its `$project`. -/
structure CommentEntry where
  _id : ObjectId
  content : String
  likes : Nat
deriving DecidableEq, Repr

/-- The `uploadedBy` sub-document of the video detail. -/
structure UploaderView where
  username : String
  avatar : String
  fullName : String
deriving DecidableEq, Repr

/-- One element of the `getVideoById` result after its `$project`. -/
structure VideoDetail where
  _id : ObjectId
  title : String
  describtion : String
  duration : Nat
  views : Nat
  thumbnail : String
  videoFile : String
  uploadedBy : UploaderView
  TotalLikes : Nat
  isLiked : Bool
  totalSubscribers : Nat
  isSubscribed : Bool
deriving DecidableEq, Repr

/-- One element of the `getAllVideos` result after its `$project`; `videoBy`
is the joined owner reduced to fullName, username and avatar. -/
structure VideoEntry where
  _id : ObjectId
  title : String
  describtion : String
  thumbnail : String
  videoFile : String
  videoBy : UploaderView
deriving DecidableEq, Repr

/-- The `subscriber` sub-document of the channel subscribers listing. -/
structure SubscriberView where
  _id : ObjectId
  fullName : String
  username : String
  avatar : String
deriving DecidableEq, Repr

/-- One element of the `getUserChannelSubscribers` aggregation after its
`$project`: the Subscription's `_id` and the joined `subscriber`. -/
structure SubscriberEntry where
  _id : ObjectId
  subscriber : SubscriberView
deriving DecidableEq, Repr

/-- One element of the `getUserTweets` result after its `$project`: the
tweet's `_id` and content, and `owner`, the joined user document as it is. -/
structure TweetEntry where
  _id : ObjectId
  content : String
  owner : User
deriving DecidableEq, Repr

/-- The `data` member of a success envelope. -/
inductive Payload where
  | text (s : String)
  | emptyObject
  | like (l : Like)
  | comment (c : Comment)
  | noComment
  | tweet (t : Tweet)
  | video (v : Video)
  | commentEntries (cs : List CommentEntry)
  | videoDetails (vs : List VideoDetail)
  | videoEntries (vs : List VideoEntry)
  | subscriberInfo (subscribers : List SubscriberEntry) (totalSubscribers : Nat)
  | tweetEntries (ts : List TweetEntry)
deriving DecidableEq, Repr

/-- How a handler ends: `res.status(..).json(new ApiResponse(..))`,
`throw new ApiError(status, message)`, or an exception that is not an
`ApiError` (a `TypeError`, a cast error of the driver). -/
inductive Outcome where
  | ok (status : Nat) (data : Payload) (message : String)
  | apiError (status : Nat) (message : String)
  | thrown (kind : String)
deriving DecidableEq, Repr

/-! ## like.controller.js -/

/-- The handler `toggleVideoLike`. -/
def toggleVideoLike (s : Store) (user : ObjectId) (videoId : PathId) : Outcome × Store :=
  if !videoId.truthy || !isValidObjectId videoId then
    (.apiError 404 "provide valid video id", s)
  else
    match castObjectId videoId with
    | none => (.thrown "CastError", s)
    | some vid =>
      match s.likes.find? (fun l => l.video == some vid && l.likedBy == user) with
      | none =>
        let liked : Like :=
          { _id := s.nextId, video := some vid, comment := none, tweet := none, likedBy := user }
        (.ok 200 (.like liked) "like added",
          { s with likes := s.likes ++ [liked], nextId := s.nextId + 1 })
      | some _ =>
        (.ok 200 (.text "unliked") "removed your like",
          { s with likes := s.likes.eraseP (fun l => l.video == some vid && l.likedBy == user) })

/-- The handler `toggleCommentLike`. -/
def toggleCommentLike (s : Store) (user : ObjectId) (commentId : PathId) : Outcome × Store :=
  if !commentId.truthy || !isValidObjectId commentId then
    (.apiError 404 "provide valid comment id", s)
  else
    match castObjectId commentId with
    | none => (.thrown "CastError", s)
    | some cid =>
      match s.likes.find? (fun l => l.comment == some cid && l.likedBy == user) with
      | none =>
        let liked : Like :=
          { _id := s.nextId, video := none, comment := some cid, tweet := none, likedBy := user }
        (.ok 200 (.like liked) "liked comment successfully",
          { s with likes := s.likes ++ [liked], nextId := s.nextId + 1 })
      | some _ =>
        (.ok 200 (.text "unliked") "removed your like",
          { s with likes := s.likes.eraseP (fun l => l.comment == some cid && l.likedBy == user) })

/-- The handler `toggleTweetLike`. -/
def toggleTweetLike (s : Store) (user : ObjectId) (tweetId : PathId) : Outcome × Store :=
  if !tweetId.truthy || !isValidObjectId tweetId then
    (.apiError 404 "provide valid tweet id", s)
  else
    match castObjectId tweetId with
    | none => (.thrown "CastError", s)
    | some tid =>
      match s.likes.find? (fun l => l.tweet == some tid && l.likedBy == user) with
      | none =>
        let liked : Like :=
          { _id := s.nextId, video := none, comment := none, tweet := some tid, likedBy := user }
        (.ok 200 (.like liked) "liked tweet successfully",
          { s with likes := s.likes ++ [liked], nextId := s.nextId + 1 })
      | some _ =>
        (.ok 200 (.text "unliked") "removed your like",
          { s with likes := s.likes.eraseP (fun l => l.tweet == some tid && l.likedBy == user) })

/-! ## subscription.controller.js -/

/-- The handler `toggleSubscription`. -/
def toggleSubscription (s : Store) (user : ObjectId) (channelId : PathId) : Outcome × Store :=
  if !channelId.truthy || !isValidObjectId channelId then
    (.apiError 400 "provide valid channel id", s)
  else
    match castObjectId channelId with
    | none => (.thrown "CastError", s)
    | some cid =>
      match s.users.find? (fun u => u._id == cid) with
      | none => (.apiError 404 "channel not found", s)
      | some _ =>
        match s.subscriptions.find? (fun x => x.subscriber == user && x.channel == cid) with
        | none =>
          let sub : Subscription := { _id := s.nextId, subscriber := user, channel := cid }
          (.ok 200 (.text "subscribed") "subscribed successfully",
            { s with subscriptions := s.subscriptions ++ [sub], nextId := s.nextId + 1 })
        | some isExist =>
          (.ok 200 (.text "unsubscribed") "unsubscribed successfully",
            { s with subscriptions := s.subscriptions.eraseP (fun x => x._id == isExist._id) })

/-! ## Persistence helpers -/

/-- Replace the first document that satisfies `p` by its image under `f`
(what `findByIdAndUpdate` does to a collection). -/
def updateFirst {α : Type} (p : α → Bool) (f : α → α) : List α → List α
  | [] => []
  | x :: xs => if p x then f x :: xs else x :: updateFirst p f xs

/-- The stages `$skip: (page - 1) * limit` and `$limit: parseInt(limit)`. The
database rejects a negative skip and a limit that is not positive. -/
def paginate {α : Type} (page limit : Int) (xs : List α) : Option (List α) :=
  if (page - 1) * limit < 0 || limit ≤ 0 then none
  else some ((xs.drop ((page - 1) * limit).toNat).take limit.toNat)

/-- One `$set` entry applied to a Video under its schema: title, describtion,
thumbnail and videoFile are string paths, isPublished a boolean path. A path
outside the schema is dropped by a strict schema and stored as it comes by a
non-strict one. `none` is a cast error. -/
def Video.applySet (strict : Bool) (v : Video) (path : String) (val : SetVal) : Option Video :=
  if path = "title" then
    match val with
    | .flat (.str t) => some { v with title := t }
    | _ => none
  else if path = "describtion" then
    match val with
    | .flat (.str t) => some { v with describtion := t }
    | _ => none
  else if path = "thumbnail" then
    match val with
    | .flat (.str t) => some { v with thumbnail := t }
    | _ => none
  else if path = "videoFile" then
    match val with
    | .flat (.str t) => some { v with videoFile := t }
    | _ => none
  else if path = "isPublished" then
    match val with
    | .bool b => some { v with isPublished := b }
    | _ => none
  else if strict then some v
  else some { v with extra := v.extra.filter (fun e => e.1 != path) ++ [(path, val)] }

/-! ## comment.controller.js -/

/-- The aggregation of `getVideoComments` up to its `$project`: `$match` on
`_id`, the two `$lookup`s, `likes = $size` of the joined likes. -/
def commentPipeline (s : Store) (vid : ObjectId) : List CommentEntry :=
  (s.comments.filter (fun c => c._id == vid)).map (fun c =>
    { _id := c._id, content := c.content,
      likes := (s.likes.filter (fun l => l.comment == some c._id)).length })

/-- The handler `getVideoComments`. -/
def getVideoComments (s : Store) (videoId : PathId) (page limit : Int) : Outcome × Store :=
  if !videoId.truthy then
    (.apiError 404 "video id is required", s)
  else
    match castObjectId videoId with
    | none => (.thrown "BSONError", s)
    | some vid =>
      match paginate page limit (commentPipeline s vid) with
      | none => (.thrown "MongoServerError", s)
      | some comments => (.ok 200 (.commentEntries comments) "comments fetched successfully", s)

/-- The handler `addComment`. -/
def addComment (s : Store) (user : ObjectId) (content : Option String) (videoId : PathId) :
    Outcome × Store :=
  if !optTrimTruthy content then
    (.apiError 404 "comment id is required", s)
  else if !videoId.trimTruthy then
    (.apiError 404 "video id is required", s)
  else
    match content, castObjectId videoId with
    | some c, some vid =>
      let comment : Comment := { _id := s.nextId, content := c, video := vid, owner := user }
      (.ok 200 (.comment comment) "Comment added successfully",
        { s with comments := s.comments ++ [comment], nextId := s.nextId + 1 })
    | _, _ => (.thrown "ValidationError", s)

/-- The handler `updateComment`. -/
def updateComment (s : Store) (user : ObjectId) (content : Option String) (commentId : PathId) :
    Outcome × Store :=
  if !optTrimTruthy content then
    (.apiError 404 "content is required", s)
  else if !commentId.trimTruthy then
    (.apiError 404 "commentId is required", s)
  else
    match content, castObjectId commentId with
    | some c, some cid =>
      match s.comments.find? (fun x => x._id == cid) with
      | none => (.thrown "TypeError", s)
      | some comment =>
        if !(comment.owner == user) then
          (.apiError 401 "Unauthorized request", s)
        else
          let comments := updateFirst (fun x => x._id == cid) (fun x => { x with content := c })
            s.comments
          let updatedComment := match comments.find? (fun x => x._id == cid) with
            | some x => Payload.comment x
            | none => Payload.noComment
          (.ok 200 updatedComment "comment updated successfully", { s with comments := comments })
    | _, _ => (.thrown "CastError", s)

/-- The handler `deleteComment`. -/
def deleteComment (s : Store) (user : ObjectId) (commentId : PathId) : Outcome × Store :=
  if !commentId.truthy then
    (.apiError 404 "comment id is required", s)
  else
    match castObjectId commentId with
    | none => (.thrown "CastError", s)
    | some cid =>
      match s.comments.find? (fun x => x._id == cid) with
      | none => (.thrown "TypeError", s)
      | some comment =>
        if !(comment.owner == user) then
          (.apiError 401 "Unauthorized request", s)
        else
          (.ok 200 .emptyObject "comment deleted successfully",
            { s with
              comments := s.comments.eraseP (fun x => x._id == cid)
              likes := s.likes.filter (fun l => !(l.comment == some cid)) })

/-! ## tweet.controller.js -/

/-- The handler `createTweet`. -/
def createTweet (s : Store) (user : ObjectId) (content : Option String) : Outcome × Store :=
  if !optTruthy content then
    (.apiError 404 "Tweet is required", s)
  else
    match content with
    | none => (.thrown "ValidationError", s)
    | some c =>
      let tweet : Tweet := { _id := s.nextId, content := c, owner := user }
      (.ok 200 (.text c) "Tweet created successfully",
        { s with tweets := s.tweets ++ [tweet], nextId := s.nextId + 1 })

/-- The handler `updateTweet`. -/
def updateTweet (s : Store) (user : ObjectId) (tweetId : PathId) (content : Option String) :
    Outcome × Store :=
  if !tweetId.truthy || !isValidObjectId tweetId then
    (.apiError 400 "provide valid tweet id", s)
  else
    match content with
    | none => (.thrown "TypeError", s)
    | some c =>
      if !strTruthy (jsTrim c) then
        (.apiError 400 "provide updated tweet", s)
      else
        match castObjectId tweetId with
        | none => (.thrown "CastError", s)
        | some tid =>
          match s.tweets.find? (fun x => x._id == tid) with
          | none => (.apiError 404 "tweet does not exist", s)
          | some tweet =>
            if !(tweet.owner == user) then
              (.apiError 401 "Unauthorized request", s)
            else
              let tweets := updateFirst (fun x => x._id == tid) (fun x => { x with content := c })
                s.tweets
              match tweets.find? (fun x => x._id == tid) with
              | none => (.apiError 500 "Error while updating tweet", { s with tweets := tweets })
              | some newTweet =>
                (.ok 200 (.tweet newTweet) "tweet updated successfully", { s with tweets := tweets })

/-- The handler `deleteTweet`. -/
def deleteTweet (s : Store) (user : ObjectId) (tweetId : PathId) : Outcome × Store :=
  if !tweetId.truthy || !isValidObjectId tweetId then
    (.apiError 400 "provide valid tweet id", s)
  else
    match castObjectId tweetId with
    | none => (.thrown "CastError", s)
    | some tid =>
      match s.tweets.find? (fun x => x._id == tid) with
      | none => (.apiError 404 "tweet does not exist", s)
      | some tweet =>
        if !(tweet.owner == user) then
          (.apiError 401 "Unauthorized request", s)
        else
          (.ok 200 .emptyObject "deleted tweet successfully",
            { s with tweets := s.tweets.eraseP (fun x => x._id == tweet._id) })

/-! ## video.controller.js -/

/-- The aggregation of `getVideoById`: `$match` on `_id`, `$lookup` and
`$unwind` of the owner, `$lookup` of the likes, `TotalLikes` and `isLiked`,
`$lookup` of the owner's subscriptions, `totalSubscribers` and
`isSubscribed`, `$project`. -/
def videoPipeline (s : Store) (user vid : ObjectId) : List VideoDetail :=
  (s.videos.filter (fun v => v._id == vid)).flatMap (fun v =>
    (s.users.filter (fun u => u._id == v.owner)).map (fun uploadedBy =>
      let likes := s.likes.filter (fun l => l.video == some v._id)
      let subscribers := s.subscriptions.filter (fun x => x.channel == v.owner)
      { _id := v._id, title := v.title, describtion := v.describtion, duration := v.duration,
        views := v.views, thumbnail := v.thumbnail, videoFile := v.videoFile,
        uploadedBy := { username := uploadedBy.username, avatar := uploadedBy.avatar,
                        fullName := uploadedBy.fullName },
        TotalLikes := likes.length,
        isLiked := (likes.map (fun l => l.likedBy)).contains user,
        totalSubscribers := subscribers.length,
        isSubscribed := (subscribers.map (fun x => x.subscriber)).contains user }))

/-- The handler `getVideoById`. -/
def getVideoById (s : Store) (user : ObjectId) (videoId : PathId) : Outcome × Store :=
  if !videoId.truthy || !isValidObjectId videoId then
    (.apiError 400 "provide valid video id", s)
  else
    match castObjectId videoId with
    | none => (.thrown "BSONError", s)
    | some vid => (.ok 200 (.videoDetails (videoPipeline s user vid)) "video fetched successfully", s)

/-- The object `updateFields` of `updateVideo`, built by its three `if`s. -/
def updateFields (newTitle newDescription : Option String) (thumbnail : Option UploadResult) :
    List (String × FlatVal) :=
  (match newTitle with
    | some t => if strTruthy t then [("title", FlatVal.str t)] else []
    | none => []) ++
  (match newDescription with
    | some d => if strTruthy d then [("description", FlatVal.str d)] else []
    | none => []) ++
  (match thumbnail with
    | some th => [("thumbnail", FlatVal.upload th)]
    | none => [])

/-- The handler `updateVideo`. `upload` is the media upload collaborator,
`strict` the strictness of the Video schema, `file` the path of the uploaded
thumbnail (`req.file?.path`). -/
def updateVideo (upload : String → Option UploadResult) (strict : Bool) (s : Store)
    (user : ObjectId) (videoId : PathId) (newTitle newDescription file : Option String) :
    Outcome × Store :=
  if !videoId.truthy || !isValidObjectId videoId then
    (.apiError 400 "provide valid video id", s)
  else if !optTrimTruthy newTitle && !optTrimTruthy newDescription && !optTruthy file then
    (.apiError 400 "Please provide at least one field to update.", s)
  else
    let thumbnail : Option UploadResult :=
      match file with
      | some path => if strTruthy path then upload path else none
      | none => none
    if thumbnail.isNone then
      (.apiError 500 "error while uploading thumbnail on cloudinary", s)
    else
      match castObjectId videoId with
      | none => (.thrown "CastError", s)
      | some vid =>
        match s.videos.find? (fun v => v._id == vid) with
        | none => (.apiError 404 "video not found", s)
        | some video =>
          if !(video.owner == user) then
            (.apiError 401 "Unauthorized request", s)
          else
            match video.applySet strict "updateFields"
                (.obj (updateFields newTitle newDescription thumbnail)) with
            | none => (.thrown "CastError", s)
            | some video2 =>
              let videos := updateFirst (fun v => v._id == vid) (fun _ => video2) s.videos
              match videos.find? (fun v => v._id == vid) with
              | none => (.apiError 500 "error while updating video details", { s with videos := videos })
              | some updated =>
                (.ok 200 (.video updated) "video details updated successfully",
                  { s with videos := videos })

/-- The handler `deleteVideo`. -/
def deleteVideo (s : Store) (user : ObjectId) (videoId : PathId) : Outcome × Store :=
  if !videoId.truthy || !isValidObjectId videoId then
    (.apiError 400 "provide valid video id", s)
  else
    match castObjectId videoId with
    | none => (.thrown "CastError", s)
    | some vid =>
      match s.videos.find? (fun v => v._id == vid) with
      | none => (.apiError 404 "video not found", s)
      | some video =>
        if !(video.owner == user) then
          (.apiError 401 "Unauthorized request", s)
        else
          (.ok 200 (.video video) "video deleted successfully",
            { s with
              videos := s.videos.eraseP (fun v => v._id == video._id)
              likes := s.likes.filter (fun l => !(l.video == some vid))
              comments := s.comments.filter (fun c => !(c.video == vid))
              users := s.users.map (fun u =>
                if u.watchHistory.contains vid then
                  { u with watchHistory := u.watchHistory.filter (fun w => !(w == vid)) }
                else u) })

/-- The handler `togglePublishStatus`. -/
def togglePublishStatus (strict : Bool) (s : Store) (user : ObjectId) (videoId : PathId) :
    Outcome × Store :=
  if !videoId.truthy || !isValidObjectId videoId then
    (.apiError 404 "provide valid video Id", s)
  else
    match castObjectId videoId with
    | none => (.thrown "CastError", s)
    | some vid =>
      match s.videos.find? (fun v => v._id == vid) with
      | none => (.apiError 404 "video not found", s)
      | some video =>
        if !(video.owner == user) then
          (.apiError 401 "Unauthorized request", s)
        else
          match video.applySet strict "isPublished" (.bool (!video.isPublished)) with
          | none => (.thrown "CastError", s)
          | some video2 =>
            let videos := updateFirst (fun v => v._id == vid) (fun _ => video2) s.videos
            match videos.find? (fun v => v._id == vid) with
            | none => (.apiError 500 "error while toggling status", { s with videos := videos })
            | some toggleStatus =>
              (.ok 200 (.video toggleStatus) "status toggled successfully",
                { s with videos := videos })

/-! ## Aggregations of the listing handlers -/

/-- A value written into an aggregation stage. The driver does not cast a
pipeline to the schema, so a request string stays a string there unless the
handler wraps it in `new mongoose.Types.ObjectId(..)`. -/
inductive AggValue where
  | oid (i : ObjectId)
  | str (p : PathId)
deriving DecidableEq, Repr

/-- Equality of a stage value with a stored ObjectId: a string is never equal
to an ObjectId. -/
def AggValue.eqId : AggValue → ObjectId → Bool
  | .oid i, j => i == j
  | .str _, _ => false

/-- The aggregation of `getUserChannelSubscribers`: `$match` on `channel`,
`$lookup` into users with `localField: "channel"` as `subscriber`, `$unwind`,
`$project`. -/
def subscribersPipeline (s : Store) (channel : AggValue) : List SubscriberEntry :=
  (s.subscriptions.filter (fun x => channel.eqId x.channel)).flatMap (fun x =>
    (s.users.filter (fun w => w._id == x.channel)).map (fun subscriber =>
      { _id := x._id,
        subscriber := { _id := subscriber._id, fullName := subscriber.fullName,
                        username := subscriber.username, avatar := subscriber.avatar } }))

/-- The handler `getUserChannelSubscribers`. -/
def getUserChannelSubscribers (s : Store) (channelId : PathId) : Outcome × Store :=
  if !channelId.truthy || !isValidObjectId channelId then
    (.apiError 400 "provide valid channel id", s)
  else
    match castObjectId channelId with
    | none => (.thrown "CastError", s)
    | some cid =>
      match s.users.find? (fun w => w._id == cid) with
      | none => (.apiError 404 "provided id does not exist", s)
      | some _ =>
        let subscribers := subscribersPipeline s (.str channelId)
        if subscribers.length == 0 then
          (.apiError 404 "This channel have no subscribers yet", s)
        else
          (.ok 200 (.subscriberInfo subscribers subscribers.length)
            "subscribers fetched successfully", s)

/-- The aggregation of `getUserTweets`: `$match` on `owner`, `$lookup` into
users as `ownerDetails`, `$unwind`, `$project` of content and
`owner: "$ownerDetails"`. -/
def tweetPipeline (s : Store) (uid : ObjectId) : List TweetEntry :=
  (s.tweets.filter (fun t => t.owner == uid)).flatMap (fun t =>
    (s.users.filter (fun w => w._id == t.owner)).map (fun ownerDetails =>
      { _id := t._id, content := t.content, owner := ownerDetails }))

/-- The handler `getUserTweets`. -/
def getUserTweets (s : Store) (userId : PathId) : Outcome × Store :=
  if !userId.truthy || !isValidObjectId userId then
    (.apiError 404 "provide valid user id", s)
  else
    match castObjectId userId with
    | none => (.thrown "BSONError", s)
    | some uid => (.ok 200 (.tweetEntries (tweetPipeline s uid)) "tweets fetched successfully", s)

/-- What the database engine decides in `getAllVideos`. `regex` compiles a
`$regex` pattern under the option `i` into a test on texts, and is `none` for
a pattern that is not a regular expression. `acceptsSortKey` tells whether a
field path may stand in a `$sort`, `le` is the ascending order of the entries
on a sort key, and `sortStage` is the `$sort` stage for a key and a direction
(1 or -1), `none` when it is rejected. -/
structure Engine where
  regex : String → Option (String → Bool)
  acceptsSortKey : String → Bool
  le : String → VideoEntry → VideoEntry → Bool
  sortStage : String → Int → List VideoEntry → Option (List VideoEntry)

/-- The order a `$sort` on `key` with direction `dir` puts two entries in:
ascending for 1, descending otherwise. -/
def Engine.inOrder (db : Engine) (key : String) (dir : Int) (a b : VideoEntry) : Prop :=
  if dir = 1 then db.le key a b = true else db.le key b a = true

/-- The contract of the engine's `$sort`: a key it does not accept is
rejected, and for a key it accepts the stage returns a rearrangement of its
input in which every entry stands before the entries that follow it in the
order asked for. -/
def Engine.Sorts (db : Engine) : Prop :=
  ∀ (key : String) (dir : Int) (xs : List VideoEntry),
    (db.acceptsSortKey key = false → db.sortStage key dir xs = none) ∧
    (db.acceptsSortKey key = true →
      ∃ ys, db.sortStage key dir xs = some ys ∧ ys.Perm xs ∧
        ys.Pairwise (db.inOrder key dir))

/-- The stages of `getAllVideos` before its `$sort`, for a compiled pattern:
`$match` on title or describtion, `$lookup` and `$unwind` of the owner as
`videoBy`, `$project`. -/
def videoMatchJoin (m : String → Bool) (s : Store) : List VideoEntry :=
  (s.videos.filter (fun v => m v.title || m v.describtion)).flatMap (fun v =>
    (s.users.filter (fun w => w._id == v.owner)).map (fun videoBy =>
      { _id := v._id, title := v.title, describtion := v.describtion,
        thumbnail := v.thumbnail, videoFile := v.videoFile,
        videoBy := { username := videoBy.username, avatar := videoBy.avatar,
                     fullName := videoBy.fullName } }))

/-- The handler `getAllVideos`. The query is `req.query.query`, absent or a
string; an absent query, a pattern or a sort key the engine rejects, and a
skip or limit it rejects, each make the aggregation throw, and the handler has
no catch. The sort key is the computed property name `[sortBy]`, which is
"undefined" when `sortBy` is absent. -/
def getAllVideos (db : Engine) (s : Store) (query sortBy sortType : Option String)
    (page limit : Int) : Outcome × Store :=
  match query with
  | none => (.thrown "MongoServerError", s)
  | some q =>
    match db.regex q with
    | none => (.thrown "MongoServerError", s)
    | some m =>
      match db.sortStage (sortBy.getD "undefined") (if sortType == some "asc" then 1 else -1)
          (videoMatchJoin m s) with
      | none => (.thrown "MongoServerError", s)
      | some sorted =>
        match paginate page limit sorted with
        | none => (.thrown "MongoServerError", s)
        | some video => (.ok 200 (.videoEntries video) "videos fetched successfully", s)

/-- The filtered video list in the spec's words (video listing: filter on title
or description by the query, join owner, project display fields): one entry,
in store order, for each Video whose title or describtion the query matches,
showing the video's title, describtion, thumbnail and videoFile and its
owner's fullName, username and avatar. -/
def specFilteredVideos (m : String → Bool) (s : Store) : List VideoEntry :=
  s.videos.filterMap (fun v =>
    if m v.title || m v.describtion then
      (s.users.find? (fun w => w._id == v.owner)).map (fun owner =>
        { _id := v._id, title := v.title, describtion := v.describtion,
          thumbnail := v.thumbnail, videoFile := v.videoFile,
          videoBy := { username := owner.username, avatar := owner.avatar,
                       fullName := owner.fullName } })
    else none)

/-! ## Properties of a store -/

/-- At most one Like per (likedBy, video), per (likedBy, comment) and per
(likedBy, tweet) pair, and at most one Subscription per (subscriber, channel)
pair. -/
def UniqueRelations (s : Store) : Prop :=
  (∀ u t, (s.likes.filter (fun l => l.likedBy == u && l.video == some t)).length ≤ 1) ∧
  (∀ u t, (s.likes.filter (fun l => l.likedBy == u && l.comment == some t)).length ≤ 1) ∧
  (∀ u t, (s.likes.filter (fun l => l.likedBy == u && l.tweet == some t)).length ≤ 1) ∧
  (∀ u t, (s.subscriptions.filter (fun x => x.subscriber == u && x.channel == t)).length ≤ 1)

/-! ## Sample data -/

/-- A video of user 1. -/
def sampleVideo : Video :=
  { _id := 10, videoFile := "v10.mp4", thumbnail := "t10.png", title := "first",
    describtion := "about", duration := 60, views := 3, isPublished := true, owner := 1,
    extra := [] }

/-- A small store: two users, two videos, two comments, three likes, a tweet
and a subscription. -/
def sampleStore : Store :=
  { users := [⟨1, "ann", "Ann", "a.png", [10, 11, 10]⟩, ⟨2, "bob", "Bob", "b.png", [11]⟩],
    videos := [sampleVideo,
      { _id := 11, videoFile := "v11.mp4", thumbnail := "t11.png", title := "second",
        describtion := "more", duration := 30, views := 0, isPublished := false, owner := 2,
        extra := [] }],
    comments := [⟨20, "nice", 10, 2⟩, ⟨21, "ok", 11, 1⟩],
    likes := [⟨30, some 10, none, none, 2⟩, ⟨31, none, some 20, none, 1⟩,
      ⟨32, none, none, some 40, 2⟩],
    tweets := [⟨40, "hello", 1⟩],
    subscriptions := [⟨50, 2, 1⟩],
    nextId := 60 }

/-- An upload collaborator that always succeeds. -/
def sampleUpload (path : String) : Option UploadResult :=
  some { url := "http://cdn/" ++ path, duration := 0 }

/-- Lexicographic order on lists of code points: `lexLe a b` is true when `a`
is at most `b`. -/
def lexLe : List Nat → List Nat → Bool
  | [], _ => true
  | _ :: _, [] => false
  | a :: as, b :: bs => decide (a < b) || (a == b && lexLe as bs)

/-- The components of a field path, cut at the dots. -/
def splitDots : List Char → List (List Char)
  | [] => [[]]
  | c :: cs =>
    match splitDots cs with
    | [] => [[c]]
    | p :: ps => if c = '.' then [] :: p :: ps else (c :: p) :: ps

/-- A field path with no empty component and no component that begins with a
dollar sign. -/
def validFieldPath (key : String) : Bool :=
  (splitDots key.toList).all (fun p =>
    match p with
    | [] => false
    | c :: _ => c != '$')

/-- The value of an entry on a sort key, as a list of numbers: the identifier
for `_id`, the code points for the string fields, nothing for a path the entry
does not have. -/
def sortRank (key : String) (e : VideoEntry) : List Nat :=
  if key = "_id" then [e._id]
  else if key = "title" then e.title.toList.map Char.toNat
  else if key = "describtion" then e.describtion.toList.map Char.toNat
  else if key = "thumbnail" then e.thumbnail.toList.map Char.toNat
  else if key = "videoFile" then e.videoFile.toList.map Char.toNat
  else if key = "videoBy.username" then e.videoBy.username.toList.map Char.toNat
  else if key = "videoBy.fullName" then e.videoBy.fullName.toList.map Char.toNat
  else if key = "videoBy.avatar" then e.videoBy.avatar.toList.map Char.toNat
  else []

/-- The ascending order of the sample engine on a sort key. -/
def sampleLe (key : String) (a b : VideoEntry) : Bool :=
  lexLe (sortRank key a) (sortRank key b)

/-- A sample engine. A pattern made of letters, digits and blanks only is
compiled to the test "the text contains the pattern, letter case ignored";
any other pattern is refused, as is the unbalanced "(" by every engine. A sort
key must be a valid field path; `$sort` is a stable insertion sort by the
binary order of the value on the key. -/
def sampleEngine : Engine :=
  { regex := fun pattern =>
      if pattern.toList.all (fun c => c.isAlphanum || c = ' ') then
        some (fun text =>
          decide (pattern.toList.map Char.toLower <:+: text.toList.map Char.toLower))
      else none,
    acceptsSortKey := validFieldPath,
    le := sampleLe,
    sortStage := fun key dir xs =>
      if validFieldPath key then
        if dir = 1 then some (xs.insertionSort (fun a b => sampleLe key a b = true))
        else some (xs.insertionSort (fun a b => sampleLe key b a = true))
      else none }

end VideoTube

/-! ## Theorems -/

namespace VideoTube

/-! ### List facts the handlers rest on -/

theorem find?_append_fresh {α : Type} (p : α → Bool) (l : List α) (x : α)
    (h : l.find? p = none) (hx : p x = true) : (l ++ [x]).find? p = some x := by
  simp [List.find?_append, h, hx]

theorem eraseP_append_fresh {α : Type} (p : α → Bool) (l : List α) (x : α)
    (h : l.find? p = none) (hx : p x = true) : (l ++ [x]).eraseP p = l := by
  rw [List.eraseP_append_right _ (by simpa using h)]
  simp [hx]

theorem valid_truthy (i : ObjectId) : (PathId.valid i).truthy = true := by
  show optTruthy (some "0123456789abcdef01234567") = true
  decide

theorem valid_trimTruthy (i : ObjectId) : (PathId.valid i).trimTruthy = true := by
  show optTrimTruthy (some "0123456789abcdef01234567") = true
  decide

theorem filter_eq_singleton_of_nodup {α : Type} (key : α → ObjectId) (k : ObjectId)
    (l : List α) (a : α) (h : (l.map key).Nodup) (ha : a ∈ l) (hk : key a = k) :
    l.filter (fun x => key x == k) = [a] := by
  induction l with
  | nil => cases ha
  | cons b l ih =>
    rw [List.map_cons, List.nodup_cons] at h
    rcases List.mem_cons.mp ha with hab | hal
    · subst hab
      have hnil : l.filter (fun x => key x == k) = [] := by
        rw [List.filter_eq_nil_iff]
        intro y hy
        have : key y ≠ k := fun e => h.1 (by rw [hk, ← e]; exact List.mem_map_of_mem key hy)
        simpa using this
      simp [List.filter_cons, hk, hnil]
    · have hb : key b ≠ k := fun e => h.1 (by rw [e, ← hk]; exact List.mem_map_of_mem key hal)
      simp [List.filter_cons, hb, ih h.2 hal]

/-! ### C1: toggling twice -/

/-- C1: for each toggle handler, when no relation record for (U, T) exists
(and, for `toggleSubscription`, T is an existing user), the first call appends
exactly one relation record for (U, T) and changes no other record, and a
second identical call removes it again: every collection is as it was at the
start, and for the three like handlers the second call answers with the data
"unliked". -/
theorem toggle_twice_restores (s : Store) (u t : ObjectId) :
    ((∀ l ∈ s.likes, ¬ (l.video = some t ∧ l.likedBy = u)) →
      (toggleVideoLike s u (.valid t)).2 =
        { s with likes := s.likes ++ [⟨s.nextId, some t, none, none, u⟩],
                 nextId := s.nextId + 1 } ∧
      toggleVideoLike (toggleVideoLike s u (.valid t)).2 u (.valid t) =
        (.ok 200 (.text "unliked") "removed your like", { s with nextId := s.nextId + 1 })) ∧
    ((∀ l ∈ s.likes, ¬ (l.comment = some t ∧ l.likedBy = u)) →
      (toggleCommentLike s u (.valid t)).2 =
        { s with likes := s.likes ++ [⟨s.nextId, none, some t, none, u⟩],
                 nextId := s.nextId + 1 } ∧
      toggleCommentLike (toggleCommentLike s u (.valid t)).2 u (.valid t) =
        (.ok 200 (.text "unliked") "removed your like", { s with nextId := s.nextId + 1 })) ∧
    ((∀ l ∈ s.likes, ¬ (l.tweet = some t ∧ l.likedBy = u)) →
      (toggleTweetLike s u (.valid t)).2 =
        { s with likes := s.likes ++ [⟨s.nextId, none, none, some t, u⟩],
                 nextId := s.nextId + 1 } ∧
      toggleTweetLike (toggleTweetLike s u (.valid t)).2 u (.valid t) =
        (.ok 200 (.text "unliked") "removed your like", { s with nextId := s.nextId + 1 })) ∧
    ((∀ x ∈ s.subscriptions, ¬ (x.subscriber = u ∧ x.channel = t)) →
      (∃ c ∈ s.users, c._id = t) →
      (∀ x ∈ s.subscriptions, x._id ≠ s.nextId) →
      (toggleSubscription s u (.valid t)).2 =
        { s with subscriptions := s.subscriptions ++ [⟨s.nextId, u, t⟩],
                 nextId := s.nextId + 1 } ∧
      toggleSubscription (toggleSubscription s u (.valid t)).2 u (.valid t) =
        (.ok 200 (.text "unsubscribed") "unsubscribed successfully",
          { s with nextId := s.nextId + 1 })) := by
  refine ⟨?_, ?_, ?_, ?_⟩
  · intro h
    have hf : s.likes.find? (fun l => l.video == some t && l.likedBy == u) = none := by
      simpa [List.find?_eq_none] using h
    have h1 : (toggleVideoLike s u (.valid t)).2 =
        { s with likes := s.likes ++ [⟨s.nextId, some t, none, none, u⟩],
                 nextId := s.nextId + 1 } := by
      simp [toggleVideoLike, valid_truthy, isValidObjectId, castObjectId, hf]
    refine ⟨h1, ?_⟩
    rw [h1]
    simp only [toggleVideoLike, valid_truthy, isValidObjectId, castObjectId]
    rw [find?_append_fresh _ _ _ hf (by simp), eraseP_append_fresh _ _ _ hf (by simp)]
    simp
  · intro h
    have hf : s.likes.find? (fun l => l.comment == some t && l.likedBy == u) = none := by
      simpa [List.find?_eq_none] using h
    have h1 : (toggleCommentLike s u (.valid t)).2 =
        { s with likes := s.likes ++ [⟨s.nextId, none, some t, none, u⟩],
                 nextId := s.nextId + 1 } := by
      simp [toggleCommentLike, valid_truthy, isValidObjectId, castObjectId, hf]
    refine ⟨h1, ?_⟩
    rw [h1]
    simp only [toggleCommentLike, valid_truthy, isValidObjectId, castObjectId]
    rw [find?_append_fresh _ _ _ hf (by simp), eraseP_append_fresh _ _ _ hf (by simp)]
    simp
  · intro h
    have hf : s.likes.find? (fun l => l.tweet == some t && l.likedBy == u) = none := by
      simpa [List.find?_eq_none] using h
    have h1 : (toggleTweetLike s u (.valid t)).2 =
        { s with likes := s.likes ++ [⟨s.nextId, none, none, some t, u⟩],
                 nextId := s.nextId + 1 } := by
      simp [toggleTweetLike, valid_truthy, isValidObjectId, castObjectId, hf]
    refine ⟨h1, ?_⟩
    rw [h1]
    simp only [toggleTweetLike, valid_truthy, isValidObjectId, castObjectId]
    rw [find?_append_fresh _ _ _ hf (by simp), eraseP_append_fresh _ _ _ hf (by simp)]
    simp
  · intro h hch hfresh
    have hf : s.subscriptions.find? (fun x => x.subscriber == u && x.channel == t) = none := by
      simpa [List.find?_eq_none] using h
    have hid : s.subscriptions.find? (fun x => x._id == s.nextId) = none := by
      simpa [List.find?_eq_none] using hfresh
    obtain ⟨c, hc⟩ : ∃ c, s.users.find? (fun x => x._id == t) = some c := by
      obtain ⟨c, hc, hct⟩ := hch
      cases hfu : s.users.find? (fun x => x._id == t) with
      | some c2 => exact ⟨c2, rfl⟩
      | none =>
        rw [List.find?_eq_none] at hfu
        exact absurd (by simpa using hct) (hfu c hc)
    have h1 : (toggleSubscription s u (.valid t)).2 =
        { s with subscriptions := s.subscriptions ++ [⟨s.nextId, u, t⟩],
                 nextId := s.nextId + 1 } := by
      simp [toggleSubscription, valid_truthy, isValidObjectId, castObjectId, hf, hc]
    refine ⟨h1, ?_⟩
    rw [h1]
    simp only [toggleSubscription, valid_truthy, isValidObjectId, castObjectId, hc]
    rw [find?_append_fresh _ _ _ hf (by simp)]
    simp only [Bool.not_true, Bool.or_self, Bool.false_eq_true, if_false]
    rw [eraseP_append_fresh _ _ _ hid (by simp)]

/-- C1 on the sample store: user 1 toggles twice on target 2, which is also an
existing user. -/
theorem toggle_twice_restores_witness :
    toggleVideoLike (toggleVideoLike sampleStore 1 (.valid 2)).2 1 (.valid 2) =
      (.ok 200 (.text "unliked") "removed your like", { sampleStore with nextId := 61 }) ∧
    toggleCommentLike (toggleCommentLike sampleStore 1 (.valid 2)).2 1 (.valid 2) =
      (.ok 200 (.text "unliked") "removed your like", { sampleStore with nextId := 61 }) ∧
    toggleTweetLike (toggleTweetLike sampleStore 1 (.valid 2)).2 1 (.valid 2) =
      (.ok 200 (.text "unliked") "removed your like", { sampleStore with nextId := 61 }) ∧
    toggleSubscription (toggleSubscription sampleStore 1 (.valid 2)).2 1 (.valid 2) =
      (.ok 200 (.text "unsubscribed") "unsubscribed successfully",
        { sampleStore with nextId := 61 }) :=
  have h := toggle_twice_restores sampleStore 1 2
  ⟨(h.1 (by decide)).2, (h.2.1 (by decide)).2, (h.2.2.1 (by decide)).2,
    (h.2.2.2 (by decide) (by decide) (by decide)).2⟩

/-! ### C2: the toggles keep relations unique -/

theorem length_filter_append_le_one {α : Type} (r : α → Bool) (l : List α) (x : α)
    (h : (l.filter r).length ≤ 1) (hx : r x = true → ∀ y ∈ l, r y = false) :
    ((l ++ [x]).filter r).length ≤ 1 := by
  rw [List.filter_append, List.length_append]
  cases hr : r x with
  | false => simpa [List.filter_cons, hr] using h
  | true =>
    have : l.filter r = [] := by
      rw [List.filter_eq_nil_iff]
      intro y hy
      simp [hx hr y hy]
    simp [this, List.filter_cons, hr]

theorem length_filter_eraseP_le_one {α : Type} (r p : α → Bool) (l : List α)
    (h : (l.filter r).length ≤ 1) : ((l.eraseP p).filter r).length ≤ 1 :=
  le_trans ((List.eraseP_sublist l).filter r).length_le h

/-- C2: if the store holds at most one Like per (likedBy, video), per
(likedBy, comment) and per (likedBy, tweet) pair and at most one Subscription
per (subscriber, channel) pair, then so does the store after one call of
`toggleVideoLike`, `toggleCommentLike`, `toggleTweetLike` or
`toggleSubscription`, whatever the principal and the path identifier and
whether the call succeeds or fails. -/
theorem toggle_preserves_unique (s : Store) (u : ObjectId) (p : PathId)
    (h : UniqueRelations s) :
    UniqueRelations (toggleVideoLike s u p).2 ∧ UniqueRelations (toggleCommentLike s u p).2 ∧
    UniqueRelations (toggleTweetLike s u p).2 ∧ UniqueRelations (toggleSubscription s u p).2 := by
  obtain ⟨hv, hc, ht, hs⟩ := h
  refine ⟨?_, ?_, ?_, ?_⟩
  · unfold toggleVideoLike
    split
    · exact ⟨hv, hc, ht, hs⟩
    · split
      · exact ⟨hv, hc, ht, hs⟩
      · rename_i vid _
        split
        · rename_i hf
          rw [List.find?_eq_none] at hf
          refine ⟨fun a b => ?_, fun a b => ?_, fun a b => ?_, hs⟩
          · apply length_filter_append_le_one _ _ _ (hv a b)
            intro hx y hy
            have := hf y hy
            simp only [Bool.and_eq_true, beq_iff_eq, Option.some.injEq] at hx
            obtain ⟨rfl, rfl⟩ := hx
            simp only [Bool.and_eq_true, beq_iff_eq, not_and] at this
            cases hyl : (y.likedBy == u) <;> cases hyv : (y.video == some vid) <;> simp_all
          · apply length_filter_append_le_one _ _ _ (hc a b)
            intro hx; simp at hx
          · apply length_filter_append_le_one _ _ _ (ht a b)
            intro hx; simp at hx
        · exact ⟨fun a b => length_filter_eraseP_le_one _ _ _ (hv a b),
            fun a b => length_filter_eraseP_le_one _ _ _ (hc a b),
            fun a b => length_filter_eraseP_le_one _ _ _ (ht a b), hs⟩
  · unfold toggleCommentLike
    split
    · exact ⟨hv, hc, ht, hs⟩
    · split
      · exact ⟨hv, hc, ht, hs⟩
      · rename_i cid _
        split
        · rename_i hf
          rw [List.find?_eq_none] at hf
          refine ⟨fun a b => ?_, fun a b => ?_, fun a b => ?_, hs⟩
          · apply length_filter_append_le_one _ _ _ (hv a b)
            intro hx; simp at hx
          · apply length_filter_append_le_one _ _ _ (hc a b)
            intro hx y hy
            have := hf y hy
            simp only [Bool.and_eq_true, beq_iff_eq, Option.some.injEq] at hx
            obtain ⟨rfl, rfl⟩ := hx
            simp only [Bool.and_eq_true, beq_iff_eq, not_and] at this
            cases hyl : (y.likedBy == u) <;> cases hyv : (y.comment == some cid) <;> simp_all
          · apply length_filter_append_le_one _ _ _ (ht a b)
            intro hx; simp at hx
        · exact ⟨fun a b => length_filter_eraseP_le_one _ _ _ (hv a b),
            fun a b => length_filter_eraseP_le_one _ _ _ (hc a b),
            fun a b => length_filter_eraseP_le_one _ _ _ (ht a b), hs⟩
  · unfold toggleTweetLike
    split
    · exact ⟨hv, hc, ht, hs⟩
    · split
      · exact ⟨hv, hc, ht, hs⟩
      · rename_i tid _
        split
        · rename_i hf
          rw [List.find?_eq_none] at hf
          refine ⟨fun a b => ?_, fun a b => ?_, fun a b => ?_, hs⟩
          · apply length_filter_append_le_one _ _ _ (hv a b)
            intro hx; simp at hx
          · apply length_filter_append_le_one _ _ _ (hc a b)
            intro hx; simp at hx
          · apply length_filter_append_le_one _ _ _ (ht a b)
            intro hx y hy
            have := hf y hy
            simp only [Bool.and_eq_true, beq_iff_eq, Option.some.injEq] at hx
            obtain ⟨rfl, rfl⟩ := hx
            simp only [Bool.and_eq_true, beq_iff_eq, not_and] at this
            cases hyl : (y.likedBy == u) <;> cases hyv : (y.tweet == some tid) <;> simp_all
        · exact ⟨fun a b => length_filter_eraseP_le_one _ _ _ (hv a b),
            fun a b => length_filter_eraseP_le_one _ _ _ (hc a b),
            fun a b => length_filter_eraseP_le_one _ _ _ (ht a b), hs⟩
  · unfold toggleSubscription
    split
    · exact ⟨hv, hc, ht, hs⟩
    · split
      · exact ⟨hv, hc, ht, hs⟩
      · rename_i cid _
        split
        · exact ⟨hv, hc, ht, hs⟩
        · split
          · rename_i hf
            rw [List.find?_eq_none] at hf
            refine ⟨hv, hc, ht, fun a b => ?_⟩
            apply length_filter_append_le_one _ _ _ (hs a b)
            intro hx y hy
            have := hf y hy
            simp only [Bool.and_eq_true, beq_iff_eq] at hx
            obtain ⟨rfl, rfl⟩ := hx
            simp only [Bool.and_eq_true, beq_iff_eq, not_and] at this
            cases hyl : (y.subscriber == u) <;> cases hyv : (y.channel == cid) <;> simp_all
          · exact ⟨hv, hc, ht, fun a b => length_filter_eraseP_le_one _ _ _ (hs a b)⟩

/-- C2 at a concrete store: one video like by user 2 on video 7, toggled again
by user 2. -/
theorem toggle_preserves_unique_witness :
    UniqueRelations (toggleVideoLike ⟨[], [], [], [⟨3, some 7, none, none, 2⟩], [], [], 5⟩ 2
      (.valid 7)).2 ∧
    UniqueRelations (toggleCommentLike ⟨[], [], [], [⟨3, some 7, none, none, 2⟩], [], [], 5⟩ 2
      (.valid 7)).2 ∧
    UniqueRelations (toggleTweetLike ⟨[], [], [], [⟨3, some 7, none, none, 2⟩], [], [], 5⟩ 2
      (.valid 7)).2 ∧
    UniqueRelations (toggleSubscription ⟨[], [], [], [⟨3, some 7, none, none, 2⟩], [], [], 5⟩ 2
      (.valid 7)).2 :=
  toggle_preserves_unique ⟨[], [], [], [⟨3, some 7, none, none, 2⟩], [], [], 5⟩ 2 (.valid 7)
    ⟨fun _ _ => le_trans (List.length_filter_le _ _) (by simp),
     fun _ _ => le_trans (List.length_filter_le _ _) (by simp),
     fun _ _ => le_trans (List.length_filter_le _ _) (by simp),
     fun _ _ => le_trans (List.length_filter_le _ _) (by simp)⟩

/-! ### C3: deleting a video and its dependents -/

theorem eraseP_eq_filter_of_nodup {α : Type} (key : α → ObjectId) (k : ObjectId) (l : List α)
    (h : (l.map key).Nodup) :
    l.eraseP (fun x => key x == k) = l.filter (fun x => key x != k) := by
  induction l with
  | nil => rfl
  | cons a l ih =>
    rw [List.map_cons, List.nodup_cons] at h
    by_cases hk : key a = k
    · have hnot : ∀ y ∈ l, key y ≠ k := by
        intro y hy hyk
        exact h.1 (by rw [hk, ← hyk]; exact List.mem_map_of_mem key hy)
      have hfil : l.filter (fun x => key x != k) = l := by
        rw [List.filter_eq_self]
        intro y hy
        simpa using hnot y hy
      simp [List.eraseP_cons, List.filter_cons, hk, hfil]
    · simp [List.eraseP_cons, List.filter_cons, hk, ih h.2]

theorem find?_id_eq {α : Type} (key : α → ObjectId) (k : ObjectId) (l : List α) (a : α)
    (h : l.find? (fun x => key x == k) = some a) : key a = k := by
  simpa using List.find?_some h

/-- C3: for a store whose videos have distinct identifiers, an existing Video
V and its owner U, `deleteVideo(V)` by U succeeds, and in the store afterwards
V is absent, no Comment has video = V, no Like has video = V and no User's
watch history contains V, while the Videos other than V, the Comments and Likes
of other videos and every other watch-history entry are kept as they were (so
are tweets and subscriptions). -/
theorem deleteVideo_cascade (s : Store) (u vid : ObjectId) (video : Video)
    (hnodup : (s.videos.map (fun v => v._id)).Nodup)
    (hfind : s.videos.find? (fun v => v._id == vid) = some video)
    (howner : video.owner = u) :
    (deleteVideo s u (.valid vid)).1 = .ok 200 (.video video) "video deleted successfully" ∧
    (∀ v ∈ (deleteVideo s u (.valid vid)).2.videos, v._id ≠ vid) ∧
    (∀ c ∈ (deleteVideo s u (.valid vid)).2.comments, c.video ≠ vid) ∧
    (∀ l ∈ (deleteVideo s u (.valid vid)).2.likes, l.video ≠ some vid) ∧
    (∀ w ∈ (deleteVideo s u (.valid vid)).2.users, vid ∉ w.watchHistory) ∧
    (deleteVideo s u (.valid vid)).2.videos = s.videos.filter (fun v => v._id != vid) ∧
    (deleteVideo s u (.valid vid)).2.comments = s.comments.filter (fun c => c.video != vid) ∧
    (deleteVideo s u (.valid vid)).2.likes = s.likes.filter (fun l => l.video != some vid) ∧
    (deleteVideo s u (.valid vid)).2.users =
      s.users.map (fun w => { w with watchHistory := w.watchHistory.filter (fun x => x != vid) }) ∧
    (deleteVideo s u (.valid vid)).2.tweets = s.tweets ∧
    (deleteVideo s u (.valid vid)).2.subscriptions = s.subscriptions := by
  have hid : video._id = vid := find?_id_eq (fun v => v._id) vid s.videos video hfind
  have hres : deleteVideo s u (.valid vid) =
      (.ok 200 (.video video) "video deleted successfully",
        { s with
          videos := s.videos.filter (fun v => v._id != vid)
          likes := s.likes.filter (fun l => l.video != some vid)
          comments := s.comments.filter (fun c => c.video != vid)
          users := s.users.map (fun w =>
            { w with watchHistory := w.watchHistory.filter (fun x => x != vid) }) }) := by
    simp only [deleteVideo, valid_truthy, isValidObjectId, castObjectId, hfind, howner, hid]
    simp only [Bool.not_true, Bool.or_self, Bool.false_eq_true, if_false, beq_self_eq_true]
    rw [eraseP_eq_filter_of_nodup (fun v => v._id) vid s.videos hnodup]
    congr 2
    apply List.map_congr_left
    intro w _
    by_cases hw : vid ∈ w.watchHistory
    · simp [hw, bne]
    · have : w.watchHistory.filter (fun x => !(x == vid)) = w.watchHistory := by
        rw [List.filter_eq_self]
        intro y hy
        have : y ≠ vid := fun e => hw (e ▸ hy)
        simpa using this
      simp [hw, bne, this]
  rw [hres]
  refine ⟨rfl, ?_, ?_, ?_, ?_, rfl, rfl, rfl, rfl, rfl, rfl⟩
  · intro v hv
    simpa using (List.mem_filter.mp hv).2
  · intro c hc
    simpa using (List.mem_filter.mp hc).2
  · intro l hl
    simpa using (List.mem_filter.mp hl).2
  · intro w hw
    obtain ⟨w0, _, rfl⟩ := List.mem_map.mp hw
    simp

/-- C3 on the sample store: user 1 deletes video 10. -/
theorem deleteVideo_cascade_witness :
    (deleteVideo sampleStore 1 (.valid 10)).1 =
      .ok 200 (.video sampleVideo) "video deleted successfully" ∧
    (∀ v ∈ (deleteVideo sampleStore 1 (.valid 10)).2.videos, v._id ≠ 10) ∧
    (∀ w ∈ (deleteVideo sampleStore 1 (.valid 10)).2.users, 10 ∉ w.watchHistory) :=
  have h := deleteVideo_cascade sampleStore 1 10 sampleVideo (by decide) (by decide) rfl
  ⟨h.1, h.2.1, h.2.2.2.2.1⟩

/-! ### C4: the ownership gate -/

/-- C4: for every existing resource whose owner differs from the acting
principal and every request that passes input validation, `updateComment`,
`deleteComment`, `updateTweet`, `deleteTweet`, `deleteVideo` and
`togglePublishStatus` each fail with an `ApiError` of status 401, and the whole
store (the resource, every Like, Comment and watch history) is as before. -/
theorem non_owner_rejected (strict : Bool) (s : Store) (u : ObjectId) :
    (∀ (cid : ObjectId) (c : Comment) (content : Option String),
      s.comments.find? (fun x => x._id == cid) = some c → c.owner ≠ u →
      optTrimTruthy content = true →
      updateComment s u content (.valid cid) = (.apiError 401 "Unauthorized request", s)) ∧
    (∀ (cid : ObjectId) (c : Comment),
      s.comments.find? (fun x => x._id == cid) = some c → c.owner ≠ u →
      deleteComment s u (.valid cid) = (.apiError 401 "Unauthorized request", s)) ∧
    (∀ (tid : ObjectId) (t : Tweet) (content : String),
      s.tweets.find? (fun x => x._id == tid) = some t → t.owner ≠ u →
      strTruthy (jsTrim content) = true →
      updateTweet s u (.valid tid) (some content) = (.apiError 401 "Unauthorized request", s)) ∧
    (∀ (tid : ObjectId) (t : Tweet),
      s.tweets.find? (fun x => x._id == tid) = some t → t.owner ≠ u →
      deleteTweet s u (.valid tid) = (.apiError 401 "Unauthorized request", s)) ∧
    (∀ (vid : ObjectId) (v : Video),
      s.videos.find? (fun x => x._id == vid) = some v → v.owner ≠ u →
      deleteVideo s u (.valid vid) = (.apiError 401 "Unauthorized request", s)) ∧
    (∀ (vid : ObjectId) (v : Video),
      s.videos.find? (fun x => x._id == vid) = some v → v.owner ≠ u →
      togglePublishStatus strict s u (.valid vid) =
        (.apiError 401 "Unauthorized request", s)) := by
  refine ⟨?_, ?_, ?_, ?_, ?_, ?_⟩
  · intro cid c content hf ho hc
    cases content with
    | none => simp [optTrimTruthy] at hc
    | some str =>
      simp [updateComment, hc, valid_trimTruthy, castObjectId, hf, ho]
  · intro cid c hf ho
    simp [deleteComment, valid_truthy, castObjectId, hf, ho]
  · intro tid t content hf ho hc
    simp [updateTweet, valid_truthy, isValidObjectId, castObjectId, hf, ho, hc]
  · intro tid t hf ho
    simp [deleteTweet, valid_truthy, isValidObjectId, castObjectId, hf, ho]
  · intro vid v hf ho
    simp [deleteVideo, valid_truthy, isValidObjectId, castObjectId, hf, ho]
  · intro vid v hf ho
    simp [togglePublishStatus, valid_truthy, isValidObjectId, castObjectId, hf, ho]

/-- C4 on the sample store, acting as user 2: comment 21, tweet 40 and video 10
belong to user 1. -/
theorem non_owner_rejected_witness :
    updateComment sampleStore 2 (some "edited") (.valid 21) =
      (.apiError 401 "Unauthorized request", sampleStore) ∧
    deleteComment sampleStore 2 (.valid 21) = (.apiError 401 "Unauthorized request", sampleStore) ∧
    updateTweet sampleStore 2 (.valid 40) (some "edited") =
      (.apiError 401 "Unauthorized request", sampleStore) ∧
    deleteTweet sampleStore 2 (.valid 40) = (.apiError 401 "Unauthorized request", sampleStore) ∧
    deleteVideo sampleStore 2 (.valid 10) = (.apiError 401 "Unauthorized request", sampleStore) ∧
    togglePublishStatus true sampleStore 2 (.valid 10) =
      (.apiError 401 "Unauthorized request", sampleStore) :=
  have h := non_owner_rejected true sampleStore 2
  ⟨h.1 21 ⟨21, "ok", 11, 1⟩ (some "edited") (by decide) (by decide) (by decide),
   h.2.1 21 ⟨21, "ok", 11, 1⟩ (by decide) (by decide),
   h.2.2.1 40 ⟨40, "hello", 1⟩ "edited" (by decide) (by decide) (by decide),
   h.2.2.2.1 40 ⟨40, "hello", 1⟩ (by decide) (by decide),
   h.2.2.2.2.1 10 sampleVideo (by decide) (by decide),
   h.2.2.2.2.2 10 sampleVideo (by decide) (by decide)⟩

/-! ### C5, C6: updateVideo -/

/-- C5 at the failing input: user 2, who does not own video 10, sends
`updateVideo` with only a new title and no thumbnail file. Whatever the upload
collaborator and the schema strictness, the handler ends with status 500
("error while uploading thumbnail on cloudinary"), not with 401; the store is
untouched. -/
theorem updateVideo_title_only_non_owner (upload : String → Option UploadResult)
    (strict : Bool) :
    updateVideo upload strict sampleStore 2 (.valid 10) (some "new title") none none =
      (.apiError 500 "error while uploading thumbnail on cloudinary", sampleStore) := by
  simp [updateVideo, valid_truthy, isValidObjectId]
  decide

/-- C6 at the failing inputs, user 1 being the owner of video 10. With only a
new title the handler ends with status 500 and nothing is stored. With a new
title and a thumbnail file whose upload succeeds the handler answers 200, yet
the stored video keeps its old title and thumbnail: the `$set` carries the one
path `updateFields`, which a strict schema drops (the store is exactly as
before) and a non-strict schema stores as a new field. -/
theorem updateVideo_owner_fields_not_written :
    (∀ (upload : String → Option UploadResult) (strict : Bool),
      updateVideo upload strict sampleStore 1 (.valid 10) (some "new title") none none =
        (.apiError 500 "error while uploading thumbnail on cloudinary", sampleStore)) ∧
    updateVideo sampleUpload true sampleStore 1 (.valid 10) (some "new title") none
        (some "/tmp/t.png") =
      (.ok 200 (.video sampleVideo) "video details updated successfully", sampleStore) ∧
    (∀ strict : Bool,
      ((updateVideo sampleUpload strict sampleStore 1 (.valid 10) (some "new title") none
          (some "/tmp/t.png")).2.videos.find? (fun v => v._id == 10)).map
        (fun v => (v.title, v.thumbnail)) = some ("first", "t10.png")) := by
  refine ⟨?_, ?_, ?_⟩
  · intro upload strict
    simp [updateVideo, valid_truthy, isValidObjectId]
    decide
  · decide
  · intro strict
    cases strict <;> decide

/-! ### C7: fetching a video that is not there -/

/-- C7 at the failing input: after user 1 has deleted video 10 from the sample
store, `getVideoById` on 10 answers with a 200 success envelope holding the
empty list, and not with an `ApiError` of status 404: the handler's test
`!video` is on an array and never fires. -/
theorem getVideoById_after_delete_not_404 :
    (getVideoById (deleteVideo sampleStore 1 (.valid 10)).2 2 (.valid 10)).1 =
      .ok 200 (.videoDetails []) "video fetched successfully" ∧
    ∀ m : String,
      (getVideoById (deleteVideo sampleStore 1 (.valid 10)).2 2 (.valid 10)).1 ≠
        .apiError 404 m := by
  refine ⟨by decide, ?_⟩
  intro m h
  have h2 : (getVideoById (deleteVideo sampleStore 1 (.valid 10)).2 2 (.valid 10)).1 =
      .ok 200 (.videoDetails []) "video fetched successfully" := by decide
  rw [h2] at h
  exact Outcome.noConfusion h

/-- What `getVideoById` does for an id that is not there, in general: for every
store, every caller and every structurally valid video id V that matches no
Video, it answers with a 200 success envelope whose data is the empty list,
and the store is as before. -/
theorem getVideoById_missing_is_empty (s : Store) (u vid : ObjectId)
    (h : ∀ v ∈ s.videos, v._id ≠ vid) :
    getVideoById s u (.valid vid) =
      (.ok 200 (.videoDetails []) "video fetched successfully", s) := by
  have hf : s.videos.filter (fun v => v._id == vid) = [] := by
    rw [List.filter_eq_nil_iff]
    intro v hv
    simpa using h v hv
  simp [getVideoById, valid_truthy, isValidObjectId, castObjectId, videoPipeline, hf]

/-- The general form on the sample store after user 1 has deleted video 10. -/
theorem getVideoById_missing_is_empty_witness :
    getVideoById (deleteVideo sampleStore 1 (.valid 10)).2 2 (.valid 10) =
      (.ok 200 (.videoDetails []) "video fetched successfully",
        (deleteVideo sampleStore 1 (.valid 10)).2) :=
  getVideoById_missing_is_empty (deleteVideo sampleStore 1 (.valid 10)).2 2 10 (by decide)

/-! ### C8: input validation -/

/-- C8 at the failing inputs on the sample store. `createTweet` with the
whitespace-only content "   " answers 200 and stores a new Tweet.
`updateTweet` without a content field, `getVideoComments` and `deleteComment`
with the malformed id "xyz", and `addComment` with that id, each end in an
exception that is not an `ApiError`, so in no client error of status 400 or
404. -/
theorem validation_gaps :
    createTweet sampleStore 1 (some "   ") =
      (.ok 200 (.text "   ") "Tweet created successfully",
        { sampleStore with tweets := sampleStore.tweets ++ [⟨60, "   ", 1⟩], nextId := 61 }) ∧
    updateTweet sampleStore 1 (.valid 40) none = (.thrown "TypeError", sampleStore) ∧
    getVideoComments sampleStore (.malformed "xyz") 1 10 = (.thrown "BSONError", sampleStore) ∧
    deleteComment sampleStore 1 (.malformed "xyz") = (.thrown "CastError", sampleStore) ∧
    addComment sampleStore 1 (some "nice") (.malformed "xyz") =
      (.thrown "ValidationError", sampleStore) := by
  refine ⟨by decide, by decide, by decide, by decide, by decide⟩

/-! ### C9: deleting a comment and its likes -/

/-- C9: for a store whose comments have distinct identifiers, an existing
Comment C and its owner U, `deleteComment(C)` by U succeeds, and in the store
afterwards C is absent and no Like has comment = C, while every other Comment
and every Like whose comment reference is not C is kept as it was (and so is
every other collection). -/
theorem deleteComment_cascade (s : Store) (u cid : ObjectId) (c : Comment)
    (hnodup : (s.comments.map (fun x => x._id)).Nodup)
    (hfind : s.comments.find? (fun x => x._id == cid) = some c)
    (howner : c.owner = u) :
    deleteComment s u (.valid cid) =
      (.ok 200 .emptyObject "comment deleted successfully",
        { s with
          comments := s.comments.filter (fun x => x._id != cid)
          likes := s.likes.filter (fun l => l.comment != some cid) }) ∧
    (∀ x ∈ (deleteComment s u (.valid cid)).2.comments, x._id ≠ cid) ∧
    (∀ l ∈ (deleteComment s u (.valid cid)).2.likes, l.comment ≠ some cid) := by
  have hres : deleteComment s u (.valid cid) =
      (.ok 200 .emptyObject "comment deleted successfully",
        { s with
          comments := s.comments.filter (fun x => x._id != cid)
          likes := s.likes.filter (fun l => l.comment != some cid) }) := by
    simp only [deleteComment, valid_truthy, castObjectId, hfind, howner]
    simp only [Bool.not_true, Bool.false_eq_true, if_false, beq_self_eq_true]
    rw [eraseP_eq_filter_of_nodup (fun x => x._id) cid s.comments hnodup]
    rfl
  rw [hres]
  refine ⟨rfl, ?_, ?_⟩
  · intro x hx
    simpa using (List.mem_filter.mp hx).2
  · intro l hl
    simpa using (List.mem_filter.mp hl).2

/-- C9 on the sample store: user 2 deletes comment 20, which like 31 refers
to. -/
theorem deleteComment_cascade_witness :
    deleteComment sampleStore 2 (.valid 20) =
      (.ok 200 .emptyObject "comment deleted successfully",
        { sampleStore with
          comments := [⟨21, "ok", 11, 1⟩]
          likes := [⟨30, some 10, none, none, 2⟩, ⟨32, none, none, some 40, 2⟩] }) :=
  (deleteComment_cascade sampleStore 2 20 ⟨20, "nice", 10, 2⟩ (by decide) (by decide) rfl).1

/-! ### C10: listing the comments of a video -/

/-- C10 at the failing input: the sample store holds one Comment on video 10
(comment 20, with one Like), yet `getVideoComments(10, page 1, limit 10)`
returns the empty list, because the `$match` stage compares the Comment's own
`_id` with the video id; asked for id 20, which is a comment's id and no
video's, it returns that comment. -/
theorem getVideoComments_matches_comment_id :
    sampleStore.comments.filter (fun c => c.video == 10) = [⟨20, "nice", 10, 2⟩] ∧
    getVideoComments sampleStore (.valid 10) 1 10 =
      (.ok 200 (.commentEntries []) "comments fetched successfully", sampleStore) ∧
    (∀ v ∈ sampleStore.videos, v._id ≠ 20) ∧
    getVideoComments sampleStore (.valid 20) 1 10 =
      (.ok 200 (.commentEntries [⟨20, "nice", 1⟩]) "comments fetched successfully",
        sampleStore) := by
  refine ⟨by decide, by decide, by decide, by decide⟩

/-! ### C11: the subscribers of a channel -/

/-- C11 at the failing input: in the sample store user 2 is subscribed to
channel 1 (subscription 50), and user 1 exists. `getUserChannelSubscribers(1)`
ends with status 404 ("This channel have no subscribers yet"): the `$match`
stage compares the stored ObjectId with the request string, which the driver
does not cast in a pipeline, so for every store and every id the aggregation
is empty. Had the id been wrapped in an ObjectId, the entry for subscription
50 would hold user 1, the channel itself (the `$lookup` joins on `channel`),
not the subscriber, user 2. -/
theorem getUserChannelSubscribers_never_lists :
    sampleStore.subscriptions.filter (fun x => x.channel == 1) = [⟨50, 2, 1⟩] ∧
    getUserChannelSubscribers sampleStore (.valid 1) =
      (.apiError 404 "This channel have no subscribers yet", sampleStore) ∧
    (∀ (s : Store) (p : PathId), subscribersPipeline s (.str p) = []) ∧
    subscribersPipeline sampleStore (.oid 1) = [⟨50, ⟨1, "Ann", "ann", "a.png"⟩⟩] := by
  refine ⟨by decide, by decide, ?_, by decide⟩
  intro s p
  simp [subscribersPipeline, AggValue.eqId]

/-! ### C12: the page of the video listing -/

theorem filter_map_eq_find?_of_nodup {α β : Type} (key : α → ObjectId) (k : ObjectId)
    (l : List α) (f : α → β) (h : (l.map key).Nodup) :
    (l.filter (fun x => key x == k)).map f =
      ((l.find? (fun x => key x == k)).map f).toList := by
  cases hf : l.find? (fun x => key x == k) with
  | none =>
    have : l.filter (fun x => key x == k) = [] := by
      rw [List.filter_eq_nil_iff]
      intro y hy
      exact List.find?_eq_none.mp hf y hy
    simp [this]
  | some a =>
    have ha : a ∈ l := List.mem_of_find?_eq_some hf
    have hk : key a = k := by simpa using List.find?_some hf
    rw [filter_eq_singleton_of_nodup key k l a h ha hk]
    rfl

theorem videoMatchJoin_eq_spec (m : String → Bool) (s : Store)
    (hun : (s.users.map (fun w => w._id)).Nodup) :
    videoMatchJoin m s = specFilteredVideos m s := by
  unfold videoMatchJoin specFilteredVideos
  generalize s.videos = vs
  induction vs with
  | nil => rfl
  | cons v vs ih =>
    have hjoin : ∀ F : User → VideoEntry,
        (s.users.filter (fun w => w._id == v.owner)).map F =
          ((s.users.find? (fun w => w._id == v.owner)).map F).toList :=
      fun F => filter_map_eq_find?_of_nodup (fun w : User => w._id) v.owner s.users F hun
    by_cases hm : (m v.title || m v.describtion) = true
    · simp only [List.filter_cons, hm, if_true, List.flatMap_cons, List.filterMap_cons, ih,
        hjoin]
      cases s.users.find? (fun w => w._id == v.owner) <;> rfl
    · simp only [List.filter_cons, hm, Bool.false_eq_true, if_false, List.filterMap_cons, ih]

theorem lexLe_total : ∀ a b : List Nat, lexLe a b = true ∨ lexLe b a = true
  | [], _ => Or.inl (by simp [lexLe])
  | _ :: _, [] => Or.inr (by simp [lexLe])
  | a :: as, b :: bs => by
    rcases Nat.lt_trichotomy a b with h | h | h
    · left
      simp [lexLe, h]
    · subst h
      rcases lexLe_total as bs with h2 | h2
      · left
        simp [lexLe, h2]
      · right
        simp [lexLe, h2]
    · right
      simp [lexLe, h]

theorem lexLe_trans : ∀ a b c : List Nat,
    lexLe a b = true → lexLe b c = true → lexLe a c = true
  | [], _, _, _, _ => by simp [lexLe]
  | _ :: _, [], _, h, _ => by simp [lexLe] at h
  | _ :: _, _ :: _, [], _, h => by simp [lexLe] at h
  | a :: as, b :: bs, c :: cs, h1, h2 => by
    simp only [lexLe, Bool.or_eq_true, decide_eq_true_eq, Bool.and_eq_true, beq_iff_eq]
      at h1 h2 ⊢
    rcases h1 with h1 | ⟨rfl, h1⟩ <;> rcases h2 with h2 | ⟨rfl, h2⟩
    · left
      omega
    · left
      exact h1
    · left
      exact h2
    · right
      exact ⟨rfl, lexLe_trans as bs cs h1 h2⟩

theorem sampleEngine_sorts : sampleEngine.Sorts := by
  intro key dir xs
  refine ⟨fun h => ?_, fun h => ?_⟩
  · have h2 : validFieldPath key = false := h
    simp [sampleEngine, h2]
  · have h2 : validFieldPath key = true := h
    by_cases hd : dir = 1
    · haveI : IsTotal VideoEntry (fun a b => sampleLe key a b = true) :=
        ⟨fun a b => lexLe_total _ _⟩
      haveI : IsTrans VideoEntry (fun a b => sampleLe key a b = true) :=
        ⟨fun a b c => lexLe_trans _ _ _⟩
      refine ⟨xs.insertionSort (fun a b => sampleLe key a b = true), ?_,
        List.perm_insertionSort _ xs, ?_⟩
      · simp [sampleEngine, h2, hd]
      · have hs := List.sorted_insertionSort (fun a b => sampleLe key a b = true) xs
        refine List.Pairwise.imp ?_ hs
        intro a b hab
        simp only [Engine.inOrder, hd, if_true]
        exact hab
    · haveI : IsTotal VideoEntry (fun a b => sampleLe key b a = true) :=
        ⟨fun a b => lexLe_total _ _⟩
      haveI : IsTrans VideoEntry (fun a b => sampleLe key b a = true) :=
        ⟨fun a b c hab hbc => lexLe_trans _ _ _ hbc hab⟩
      refine ⟨xs.insertionSort (fun a b => sampleLe key b a = true), ?_,
        List.perm_insertionSort _ xs, ?_⟩
      · simp [sampleEngine, h2, hd]
      · have hs := List.sorted_insertionSort (fun a b => sampleLe key b a = true) xs
        refine List.Pairwise.imp ?_ hs
        intro a b hab
        simp only [Engine.inOrder, hd, if_false]
        exact hab

/-- C12 as stated fails: on the sample store with the sample engine,
`getAllVideos` with page 1 and limit 10 ends in an error of the database, not
in a 200 success envelope, when the filter query is "(", which is not a
regular expression, when the sort key is the empty string, and when no query
is given at all. -/
theorem getAllVideos_rejected_query_throws :
    getAllVideos sampleEngine sampleStore (some "(") (some "title") (some "asc") 1 10 =
      (.thrown "MongoServerError", sampleStore) ∧
    getAllVideos sampleEngine sampleStore (some "first") (some "") (some "asc") 1 10 =
      (.thrown "MongoServerError", sampleStore) ∧
    getAllVideos sampleEngine sampleStore none (some "title") (some "asc") 1 10 =
      (.thrown "MongoServerError", sampleStore) := by
  refine ⟨by decide, by decide, by decide⟩

/-- C12, amended: for every engine whose `$sort` sorts, every store whose
users have distinct identifiers, every filter query the engine accepts as a
regular expression, every sort key it accepts, every sort type and all
positive page and limit, `getAllVideos` answers with a 200 success envelope
and leaves the store as it was. Its data is the part from position
(page-1)*limit up to page*limit (exclusive) of a list L that is a
rearrangement of the filtered video list (the spec's: one entry per Video whose
title or describtion the query matches) and is in the order asked for by the
sort key and sort type: it has at most limit items, its i-th item is the item
of L at position (page-1)*limit + i, and it is the empty list when
(page-1)*limit is at least the number of matching videos. -/
theorem getAllVideos_page (db : Engine) (s : Store) (query : String) (m : String → Bool)
    (sortBy sortType : Option String) (page limit : Nat)
    (hdb : db.Sorts) (hun : (s.users.map (fun w => w._id)).Nodup)
    (hq : db.regex query = some m)
    (hk : db.acceptsSortKey (sortBy.getD "undefined") = true)
    (hp : 0 < page) (hl : 0 < limit) :
    ∃ L : List VideoEntry,
      L.Perm (specFilteredVideos m s) ∧
      L.Pairwise (db.inOrder (sortBy.getD "undefined")
        (if sortType == some "asc" then 1 else -1)) ∧
      getAllVideos db s (some query) sortBy sortType page limit =
        (.ok 200 (.videoEntries ((L.drop ((page - 1) * limit)).take limit))
          "videos fetched successfully", s) ∧
      ((L.drop ((page - 1) * limit)).take limit).length ≤ limit ∧
      (∀ i : Nat, i < limit →
        ((L.drop ((page - 1) * limit)).take limit)[i]? = L[(page - 1) * limit + i]?) ∧
      ((specFilteredVideos m s).length ≤ (page - 1) * limit →
        (L.drop ((page - 1) * limit)).take limit = []) := by
  obtain ⟨L, hsort, hperm, hord⟩ :=
    (hdb (sortBy.getD "undefined") (if sortType == some "asc" then 1 else -1)
      (videoMatchJoin m s)).2 hk
  rw [videoMatchJoin_eq_spec m s hun] at hperm
  have hcast : ((page : Int) - 1) * (limit : Int) = (((page - 1) * limit : Nat) : Int) := by
    rw [Nat.cast_mul, Nat.cast_sub hp]
    simp
  have hpos : ¬ ((limit : Int) ≤ 0) := by omega
  have hnn : ¬ ((((page - 1) * limit : Nat) : Int) < 0) := by omega
  have hpg : paginate (page : Int) (limit : Int) L =
      some ((L.drop ((page - 1) * limit)).take limit) := by
    unfold paginate
    rw [hcast]
    simp only [decide_eq_true_eq, Bool.or_eq_true, hnn, hpos, or_self, if_false,
      Int.toNat_ofNat]
  refine ⟨L, hperm, hord, ?_, ?_, ?_, ?_⟩
  · simp only [getAllVideos, hq, hsort, hpg]
  · rw [List.length_take]
    exact Nat.min_le_left _ _
  · intro i hi
    rw [List.getElem?_take_of_lt hi, List.getElem?_drop]
  · intro h
    rw [← hperm.length_eq] at h
    rw [List.drop_eq_nil_iff.mpr h, List.take_nil]

/-- C12, amended, on the sample store with the sample engine: both videos
match the empty pattern; sorted by title ascending, page 2 of size 1 is the
second place of a list that rearranges the two entries in title order, and the
handler's answer is the video "second". -/
theorem getAllVideos_page_witness :
    (∃ L : List VideoEntry,
      L.Perm [⟨10, "first", "about", "t10.png", "v10.mp4", ⟨"ann", "a.png", "Ann"⟩⟩,
              ⟨11, "second", "more", "t11.png", "v11.mp4", ⟨"bob", "b.png", "Bob"⟩⟩] ∧
      L.Pairwise (sampleEngine.inOrder "title" 1) ∧
      getAllVideos sampleEngine sampleStore (some "") (some "title") (some "asc") 2 1 =
        (.ok 200 (.videoEntries ((L.drop 1).take 1)) "videos fetched successfully",
          sampleStore)) ∧
    getAllVideos sampleEngine sampleStore (some "") (some "title") (some "asc") 2 1 =
      (.ok 200 (.videoEntries
          [⟨11, "second", "more", "t11.png", "v11.mp4", ⟨"bob", "b.png", "Bob"⟩⟩])
        "videos fetched successfully", sampleStore) :=
  ⟨match getAllVideos_page sampleEngine sampleStore ""
      (fun text => decide ("".toList.map Char.toLower <:+: text.toList.map Char.toLower))
      (some "title") (some "asc") 2 1 sampleEngine_sorts (by decide) rfl (by decide)
      (by decide) (by decide) with
    | ⟨L, hperm, hord, hres, _⟩ => ⟨L, hperm.trans (List.Perm.of_eq (by decide)), hord, hres⟩,
   by decide⟩

/-! ### C13: the counters of the video detail -/

/-- C13: for a store whose videos and users have distinct identifiers, an
existing Video V whose owner user exists and any caller U, `getVideoById(V)`
returns one entry, whose TotalLikes is the number of Likes with video = V,
whose isLiked is true exactly when some Like has video = V and likedBy = U,
whose totalSubscribers is the number of Subscriptions whose channel is the
owner of V, and whose isSubscribed is true exactly when some Subscription has
that channel and subscriber = U. -/
theorem getVideoById_counts (s : Store) (u vid : ObjectId) (video : Video) (owner : User)
    (hvn : (s.videos.map (fun v => v._id)).Nodup)
    (hun : (s.users.map (fun w => w._id)).Nodup)
    (hv : video ∈ s.videos) (hvid : video._id = vid)
    (ho : owner ∈ s.users) (hoid : owner._id = video.owner) :
    ∃ d : VideoDetail,
      getVideoById s u (.valid vid) =
        (.ok 200 (.videoDetails [d]) "video fetched successfully", s) ∧
      d.TotalLikes = (s.likes.filter (fun l => l.video == some vid)).length ∧
      (d.isLiked = true ↔ ∃ l ∈ s.likes, l.video = some vid ∧ l.likedBy = u) ∧
      d.totalSubscribers =
        (s.subscriptions.filter (fun x => x.channel == video.owner)).length ∧
      (d.isSubscribed = true ↔
        ∃ x ∈ s.subscriptions, x.channel = video.owner ∧ x.subscriber = u) := by
  have hfv : s.videos.filter (fun v => v._id == vid) = [video] :=
    filter_eq_singleton_of_nodup (fun v : Video => v._id) vid s.videos video hvn hv hvid
  have hfu : s.users.filter (fun w => w._id == video.owner) = [owner] :=
    filter_eq_singleton_of_nodup (fun w : User => w._id) video.owner s.users owner hun ho hoid
  refine ⟨{ _id := video._id, title := video.title, describtion := video.describtion,
            duration := video.duration, views := video.views, thumbnail := video.thumbnail,
            videoFile := video.videoFile,
            uploadedBy := { username := owner.username, avatar := owner.avatar,
                            fullName := owner.fullName },
            TotalLikes := (s.likes.filter (fun l => l.video == some video._id)).length,
            isLiked := ((s.likes.filter (fun l => l.video == some video._id)).map
              (fun l => l.likedBy)).contains u,
            totalSubscribers :=
              (s.subscriptions.filter (fun x => x.channel == video.owner)).length,
            isSubscribed := ((s.subscriptions.filter (fun x => x.channel == video.owner)).map
              (fun x => x.subscriber)).contains u }, ?_, ?_, ?_, ?_, ?_⟩
  · simp only [getVideoById, valid_truthy, isValidObjectId, castObjectId, videoPipeline, hfv,
      hfu]
    simp only [Bool.not_true, Bool.or_self, Bool.false_eq_true, if_false, List.flatMap_cons,
      List.flatMap_nil, List.map_cons, List.map_nil, List.append_nil, hfu]
  · simp only [hvid]
  · simp only [hvid, List.contains_iff_exists_mem_beq, List.mem_map, List.mem_filter]
    constructor
    · rintro ⟨a, ⟨l, ⟨hl, hlv⟩, rfl⟩, hau⟩
      exact ⟨l, hl, eq_of_beq hlv, (eq_of_beq hau).symm⟩
    · rintro ⟨l, hl, hlv, hlu⟩
      exact ⟨l.likedBy, ⟨l, ⟨hl, beq_iff_eq.mpr hlv⟩, rfl⟩, beq_iff_eq.mpr hlu.symm⟩
  · rfl
  · simp only [List.contains_iff_exists_mem_beq, List.mem_map, List.mem_filter]
    constructor
    · rintro ⟨a, ⟨x, ⟨hx, hxc⟩, rfl⟩, hau⟩
      exact ⟨x, hx, eq_of_beq hxc, (eq_of_beq hau).symm⟩
    · rintro ⟨x, hx, hxc, hxu⟩
      exact ⟨x.subscriber, ⟨x, ⟨hx, beq_iff_eq.mpr hxc⟩, rfl⟩, beq_iff_eq.mpr hxu.symm⟩

/-- C13 on the sample store: video 10 of user 1, fetched by user 2, who likes
it and is subscribed to user 1. -/
theorem getVideoById_counts_witness :
    ∃ d : VideoDetail,
      getVideoById sampleStore 2 (.valid 10) =
        (.ok 200 (.videoDetails [d]) "video fetched successfully", sampleStore) ∧
      d.TotalLikes = 1 ∧ d.isLiked = true ∧ d.totalSubscribers = 1 ∧ d.isSubscribed = true :=
  match getVideoById_counts sampleStore 2 10 sampleVideo ⟨1, "ann", "Ann", "a.png", [10, 11, 10]⟩
    (by decide) (by decide) (by decide) rfl (by decide) rfl with
  | ⟨d, h, hl, hil, hs, his⟩ =>
    ⟨d, h, hl.trans (by decide), hil.mpr ⟨⟨30, some 10, none, none, 2⟩, by decide, rfl, rfl⟩,
      hs.trans (by decide), his.mpr ⟨⟨50, 2, 1⟩, by decide, rfl, rfl⟩⟩

/-! ### C14: the tweets of a user -/

/-- C14 at the failing input: in the sample store user 2 exists and owns no
Tweet. After `createTweet` with content "hi" by user 2, `getUserTweets(2)`
returns exactly one entry with content "hi", but its owner is the whole User
record of user 2, the `_id` and the watch history [11] included, not only
fullname, username and avatar. -/
theorem getUserTweets_owner_is_whole_user :
    sampleStore.tweets.filter (fun t => t.owner == 2) = [] ∧
    getUserTweets (createTweet sampleStore 2 (some "hi")).2 (.valid 2) =
      (.ok 200 (.tweetEntries [⟨60, "hi", ⟨2, "bob", "Bob", "b.png", [11]⟩⟩])
        "tweets fetched successfully", (createTweet sampleStore 2 (some "hi")).2) := by
  refine ⟨by decide, by decide⟩

end VideoTube
